import Mathlib

/-!
# Shallow embedding of `src/avg_temp_map.py`

The script fetches a fixed-width station inventory and a yearly CSV of
observations, filters and aggregates them with pandas, normalizes a marker
size, writes a CSV artifact and plots it.  We embed the data pipeline of
`fetch_and_process_data` (and the glue of `main`) over rationals:

* floating point values are modelled by `ℚ` (every arithmetic step of the
  script — `/ 10.0`, mean, `abs`, `/ max * 15` — is exact on the values the
  spec talks about);
* Python's `float(...)` string parsing is a parameter `pf : String → Option ℚ`
  (`none` models a `ValueError`), since the claims depend only on whether a
  field parses, never on the float grammar itself;
* pandas' `NaN` (the max of an empty column, and `0.0/0.0` in the size
  normalization) is modelled by `none : Option ℚ`;
* the two `requests.get` calls are parameters of type `Except Unit _`
  (`Except.error` models a raised `requests.RequestException`);
* the file system is an association list from file names to artifact
  contents; `os.path.exists` is a lookup and `to_csv` prepends an entry.
-/

/-- Python string slicing `s[a:b]` (for `0 ≤ a ≤ b`): out-of-range indices are
clamped, never an error. -/
def pySlice (s : String) (a b : Nat) : String :=
  ((s.toList.drop a).take (b - a)).asString

/-- A parsed station inventory record, as built on line 31 of the script:
`(station_id, lat, lon)` with `station_id = line[0:11]`. -/
structure StationRecord where
  id : String
  lat : ℚ
  lon : ℚ
deriving DecidableEq, Repr

/-- The station-inventory loop of lines 24–31.  For every line the script
evaluates `float(line[12:20])` and `float(line[21:30])` *before* the country
test; a `ValueError` on any line (matching the country or not) propagates out
of the loop, so the whole parse is `none`.  Matching records are appended in
input order. -/
def parseStations (pf : String → Option ℚ) (country_code : String) :
    List String → Option (List StationRecord)
  | [] => some []
  | line :: rest =>
    match pf (pySlice line 12 20), pf (pySlice line 21 30) with
    | some la, some lo =>
      match parseStations pf country_code rest with
      | some rs =>
          if pySlice line 0 2 = country_code then
            some ({ id := pySlice line 0 11, lat := la, lon := lo } :: rs)
          else
            some rs
      | none => none
    | _, _ => none

/-- One row of the yearly observation CSV after `read_csv` and the column
renaming of line 44; only the columns the script consumes.  `DATE` is kept as
the string `astype(str)` produces on line 50. -/
structure ObsRow where
  id : String
  date : String
  element : String
  value : Int
deriving DecidableEq, Repr

/-- The element list of line 47. -/
def tempElements : List String := ["TMAX", "TMIN", "TAVG"]

/-- Line 47: `data[data['ID'].isin(station_ids) & data['ELEMENT'].isin([...])]`. -/
def filterObs (rows : List ObsRow) (stationIds : List String) : List ObsRow :=
  rows.filter (fun r => stationIds.contains r.id && tempElements.contains r.element)

/-- Code-point lexicographic order on character lists: Python's `str` order,
which `groupby(sort=True)` uses on the `ID` keys. -/
def lexLe : List Char → List Char → Bool
  | [], _ => true
  | _ :: _, [] => false
  | a :: as, b :: bs =>
    if a.toNat < b.toNat then true
    else if b.toNat < a.toNat then false
    else lexLe as bs

/-- Insert into a `lexLe`-sorted list. -/
def insertSorted (a : String) : List String → List String
  | [] => [a]
  | b :: bs => if lexLe a.toList b.toList then a :: b :: bs else b :: insertSorted a bs

/-- Insertion sort by `lexLe`. -/
def sortStrings (l : List String) : List String := l.foldr insertSorted []

/-- The group keys of `country_data.groupby(['ID'])` on line 52: the distinct
station ids of the filtered rows, sorted (pandas sorts group keys). -/
def aggIds (rows : List ObsRow) : List String := sortStrings (rows.map (·.id)).dedup

/-- Line 49 and the `'VALUE': 'mean'` aggregation of line 52 for one group:
the arithmetic mean of `VALUE.astype(float) / 10.0` over the rows of station
`i`.  Only evaluated at ids with at least one row. -/
def groupMean (rows : List ObsRow) (i : String) : ℚ :=
  let vs := (rows.filter (fun r => r.id == i)).map (fun r => (r.value : ℚ) / 10)
  vs.sum / vs.length

/-- Line 52: `country_data.groupby(['ID']).agg({'VALUE': 'mean'}).reset_index()`,
a table with columns `ID`, `VALUE`. -/
def aggregate (rows : List ObsRow) : List (String × ℚ) :=
  (aggIds rows).map (fun i => (i, groupMean rows i))

/-- A row of the joined table of line 55 before the `SIZE` columns are added:
columns `ID`, `VALUE`, `LAT`, `LON`. -/
structure PlotRow where
  id : String
  value : ℚ
  lat : ℚ
  lon : ℚ
deriving DecidableEq, Repr

/-- Line 55: `avg_temp_data.merge(station_df, on='ID')` — an inner join that
keeps the order of the left (aggregated) table and, per key, the order of the
station table. -/
def joinAvgStations (avg : List (String × ℚ)) (stations : List StationRecord) :
    List PlotRow :=
  avg.flatMap (fun p =>
    (stations.filter (fun s => s.id == p.1)).map
      (fun s => { id := p.1, value := p.2, lat := s.lat, lon := s.lon }))

/-- Line 58: `avg_temp_data['SIZE'].max()` where `SIZE = VALUE.abs()`.  The
pandas max of an empty column is `NaN`, modelled by `none`. -/
def maxAbs (rows : List PlotRow) : Option ℚ :=
  match rows.map (fun r => |r.value|) with
  | [] => none
  | x :: xs => some (xs.foldl max x)

/-- Line 59: `SIZE / max_temp * 15` for one row.  A `NaN` divisor, or the
`0.0 / 0.0` arising when the max is `0`, yields `NaN` (numpy semantics: no
exception), modelled by `none`. -/
def markerSize (mx : Option ℚ) (v : ℚ) : Option ℚ :=
  match mx with
  | none => none
  | some m => if m = 0 then none else some (|v| / m * 15)

/-- The CSV artifact written by `to_csv` on line 62: rows of
`ID, VALUE, LAT, LON, SIZE`. -/
structure Artifact where
  rows : List (String × ℚ × ℚ × ℚ × Option ℚ)
deriving DecidableEq, Repr

/-- `%Y%m%d` parsing of line 50 (`pd.to_datetime(..., format='%Y%m%d')`) on
one `DATE` string: eight digits forming a valid calendar date, else failure. -/
def isLeap (y : Nat) : Bool := (y % 4 == 0 && y % 100 != 0) || y % 400 == 0

/-- Days in a month, Gregorian. -/
def daysInMonth (y m : Nat) : Nat :=
  if m = 2 then (if isLeap y then 29 else 28)
  else if m = 4 ∨ m = 6 ∨ m = 9 ∨ m = 11 then 30
  else 31

/-- Numeric value of a digit string. -/
def digitsVal (cs : List Char) : Nat := cs.foldl (fun a c => a * 10 + (c.toNat - 48)) 0

/-- Parse a `DATE` field as `YYYYMMDD`; `none` models the exception
`pd.to_datetime` raises for that value. -/
def parseDate8 (s : String) : Option (Nat × Nat × Nat) :=
  let cs := s.toList
  if cs.length = 8 ∧ cs.all Char.isDigit then
    let y := digitsVal (cs.take 4)
    let m := digitsVal ((cs.drop 4).take 2)
    let d := digitsVal (cs.drop 6)
    if 1 ≤ m ∧ m ≤ 12 ∧ 1 ≤ d ∧ d ≤ daysInMonth y m then some (y, m, d) else none
  else none

/-- The output file name of line 10: `f'{country_code}_temperature_{year}_processed.csv'`. -/
def outputFile (country_code : String) (year : Nat) : String :=
  country_code ++ "_temperature_" ++ toString year ++ "_processed.csv"

/-- The whole of `fetch_and_process_data` (lines 9–72).  The file system `fs`
is an association list (`os.path.exists` = lookup, `to_csv` = prepend); the
two `requests.get` results are the parameters `inv` (inventory text, split
into lines) and `obs` (the decompressed, parsed yearly CSV), with
`Except.error` modelling a `requests.RequestException`.  Every exception —
fetch failure, `float` `ValueError` in the station loop, `pd.to_datetime`
failure — is caught by the handlers of lines 67–72, which return `None` and
write nothing.  Returns the Python return value and the updated file system. -/
def fetchAndProcessData (pf : String → Option ℚ)
    (fs : List (String × Artifact))
    (inv : Except Unit (List String)) (obs : Except Unit (List ObsRow))
    (year : Nat) (country_code : String) :
    Option String × List (String × Artifact) :=
  let out := outputFile country_code year
  if (fs.lookup out).isSome then
    (some out, fs)
  else
    match inv with
    | .error _ => (none, fs)
    | .ok lines =>
      match parseStations pf country_code lines with
      | none => (none, fs)
      | some stations =>
        match obs with
        | .error _ => (none, fs)
        | .ok rows =>
          let stationIds := stations.map (·.id)
          let countryData := filterObs rows stationIds
          if countryData.all (fun r => (parseDate8 r.date).isSome) then
            let avg := aggregate countryData
            let joined := joinAvgStations avg stations
            let mx := maxAbs joined
            let art : Artifact :=
              ⟨joined.map (fun r => (r.id, r.value, r.lat, r.lon, markerSize mx r.value))⟩
            (some out, (out, art) :: fs)
          else
            (none, fs)

/-- Python truthiness of `main`'s `if csv_file:` — `None` and the empty string
are falsy. -/
def pyTruthy : Option String → Bool
  | none => false
  | some s => s ≠ ""

/-- `main` (lines 100–110), reduced to what it decides: whether
`visualize_data` is invoked, which happens exactly when
`fetch_and_process_data`'s return value is truthy. -/
def mainVisualizes (pf : String → Option ℚ) (fs : List (String × Artifact))
    (inv : Except Unit (List String)) (obs : Except Unit (List ObsRow))
    (year : Nat) (country_code : String) : Bool :=
  pyTruthy (fetchAndProcessData pf fs inv obs year country_code).1

/-! ## Concrete fixtures used by counterexamples and witnesses -/

/-- A `float(...)` model that parses the two coordinate fields appearing in
the fixtures below and rejects anything else. -/
def pfEx (s : String) : Option ℚ :=
  if s = "59.90000" then some (599 / 10)
  else if s = "10.720000" then some (268 / 25)
  else none

/-- A well-formed inventory line: id `NO000000001` at columns 0–10, latitude
`59.90000` at columns 12–19, longitude `10.720000` at columns 21–29. -/
def goodLine : String := "NO000000001 59.90000 10.720000"

/-- An inventory line whose latitude field `XXXXXXXX` does not parse as a
float. -/
def badLine : String := "NO000000002 XXXXXXXX 10.720000"

/-- Two TMAX observations (210 and 230 tenths of a degree) of the good
station. -/
def row1 : ObsRow := ⟨"NO000000001", "20200101", "TMAX", 210⟩

/-- See `row1`. -/
def row2 : ObsRow := ⟨"NO000000001", "20200102", "TMAX", 230⟩

/-- An observation of the good station whose `DATE` field is not a
`YYYYMMDD` date. -/
def rowBadDate : ObsRow := ⟨"NO000000001", "garbage!", "TMAX", 230⟩

/-- An observation of a station outside the requested country: it survives no
filter, so a dataset of only this row gives an empty join. -/
def rowOther : ObsRow := ⟨"US000000001", "20200101", "TMAX", 210⟩

/-! ## Helper lemmas -/

/-- Round trip between character lists and strings. -/
theorem toList_asString (xs : List Char) : (List.asString xs).toList = xs := rfl

/-- Taking an initial slice of an initial slice collapses. -/
theorem pySlice_zero_comp (s : String) (n m : Nat) (h : m ≤ n) :
    pySlice (pySlice s 0 n) 0 m = pySlice s 0 m := by
  simp only [pySlice, List.drop_zero, Nat.sub_zero, toList_asString,
    List.take_take, Nat.min_eq_left h]

/-- Membership in `insertSorted`. -/
theorem mem_insertSorted (a b : String) (l : List String) :
    a ∈ insertSorted b l ↔ a = b ∨ a ∈ l := by
  induction l with
  | nil => simp [insertSorted]
  | cons c cs ih =>
    simp only [insertSorted]
    split
    · simp
    · simp only [List.mem_cons, ih]
      tauto

/-- Membership in `sortStrings`. -/
theorem mem_sortStrings (a : String) (l : List String) :
    a ∈ sortStrings l ↔ a ∈ l := by
  induction l with
  | nil => simp [sortStrings]
  | cons c cs ih =>
    simp only [sortStrings, List.foldr_cons] at *
    rw [mem_insertSorted, ih]
    simp

/-- Membership in the groupby keys. -/
theorem mem_aggIds (rows : List ObsRow) (i : String) :
    i ∈ aggIds rows ↔ ∃ r ∈ rows, r.id = i := by
  rw [aggIds, mem_sortStrings, List.mem_dedup, List.mem_map]

/-- A left fold of `max` dominates its initial value. -/
theorem le_foldl_max (l : List ℚ) (x : ℚ) : x ≤ l.foldl max x := by
  induction l generalizing x with
  | nil => exact le_refl x
  | cons b bs ih => exact le_trans (le_max_left x b) (ih (max x b))

/-- A left fold of `max` dominates every list element. -/
theorem mem_le_foldl_max (l : List ℚ) : ∀ x y, y ∈ l → y ≤ l.foldl max x := by
  induction l with
  | nil => intro x y hy; cases hy
  | cons b bs ih =>
    intro x y hy
    rcases List.mem_cons.mp hy with rfl | h
    · exact le_trans (le_max_right x y) (le_foldl_max bs _)
    · exact ih _ y h

/-- A left fold of `max` is the initial value or a list element. -/
theorem foldl_max_mem (l : List ℚ) : ∀ x, l.foldl max x = x ∨ l.foldl max x ∈ l := by
  induction l with
  | nil => intro x; left; rfl
  | cons b bs ih =>
    intro x
    rcases ih (max x b) with h | h
    · rcases max_choice x b with hx | hb
      · left; rw [List.foldl_cons, h, hx]
      · right; rw [List.foldl_cons, h, hb]; exact List.mem_cons_self b bs
    · right
      rw [List.foldl_cons]
      exact List.mem_cons_of_mem b h

/-- `maxAbs` is an upper bound of the `|VALUE|` column and is attained. -/
theorem maxAbs_spec (rows : List PlotRow) (mx : ℚ) (h : maxAbs rows = some mx) :
    (∀ r ∈ rows, |r.value| ≤ mx) ∧ ∃ r ∈ rows, |r.value| = mx := by
  unfold maxAbs at h
  cases hm : rows.map (fun r => |r.value|) with
  | nil => rw [hm] at h; cases h
  | cons x xs =>
    rw [hm] at h
    injection h with h
    subst h
    constructor
    · intro r hr
      have hmem : |r.value| ∈ rows.map (fun r => |r.value|) :=
        List.mem_map_of_mem _ hr
      rw [hm] at hmem
      rcases List.mem_cons.mp hmem with he | hmem'
      · rw [he]; exact le_foldl_max xs x
      · exact mem_le_foldl_max xs x _ hmem'
    · rcases foldl_max_mem xs x with h1 | h1
      · have hx : x ∈ rows.map (fun r => |r.value|) := by
          rw [hm]; exact List.mem_cons_self x xs
        obtain ⟨r, hr, hrx⟩ := List.mem_map.mp hx
        exact ⟨r, hr, by rw [hrx, h1]⟩
      · have hx : xs.foldl max x ∈ rows.map (fun r => |r.value|) := by
          rw [hm]; exact List.mem_cons_of_mem x h1
        obtain ⟨r, hr, hrx⟩ := List.mem_map.mp hx
        exact ⟨r, hr, hrx⟩

/-! ## Claims -/

/-- C6: every row retained by the filter of line 47 lies in the observation
dataset, has an element among TMAX/TMIN/TAVG, and a station id in the
requested set — and conversely every such row of the dataset is retained, so
exactly these rows feed the per-station averages of line 52. -/
theorem C6_filter_characterization (rows : List ObsRow) (ids : List String)
    (r : ObsRow) :
    r ∈ filterObs rows ids ↔
      r ∈ rows ∧ r.element ∈ tempElements ∧ r.id ∈ ids := by
  simp [filterObs, List.mem_filter, tempElements]
  tauto

/-- C7: whenever the station loop of lines 24–31 completes without a
`ValueError`, every returned record's id has the requested country code as
its two-character prefix (`id[0:2] == country_code` holds exactly), and the
returned ids are the matching lines' ids in input order. -/
theorem C7_station_prefix_and_order (pf : String → Option ℚ)
    (country_code : String) (lines : List String) (rs : List StationRecord)
    (h : parseStations pf country_code lines = some rs) :
    (∀ r ∈ rs, pySlice r.id 0 2 = country_code) ∧
    rs.map (fun r => r.id)
      = (lines.filter (fun l => pySlice l 0 2 == country_code)).map
          (fun l => pySlice l 0 11) := by
  induction lines generalizing rs with
  | nil =>
    simp only [parseStations, Option.some.injEq] at h
    subst h; simp
  | cons line rest ih =>
    simp only [parseStations] at h
    cases hla : pf (pySlice line 12 20) with
    | none => rw [hla] at h; exact absurd h (by simp)
    | some la =>
      cases hlo : pf (pySlice line 21 30) with
      | none => rw [hla, hlo] at h; exact absurd h (by simp)
      | some lo =>
        rw [hla, hlo] at h
        cases hrec : parseStations pf country_code rest with
        | none => rw [hrec] at h; exact absurd h (by simp)
        | some rs' =>
          rw [hrec] at h
          dsimp only at h
          obtain ⟨ih1, ih2⟩ := ih rs' hrec
          by_cases hcc : pySlice line 0 2 = country_code
          · rw [if_pos hcc, Option.some.injEq] at h
            subst h
            refine ⟨?_, ?_⟩
            · intro r hr
              rcases List.mem_cons.mp hr with rfl | hr'
              · show pySlice (pySlice line 0 11) 0 2 = country_code
                rw [pySlice_zero_comp line 11 2 (by norm_num), hcc]
              · exact ih1 r hr'
            · have : (pySlice line 0 2 == country_code) = true := by
                simpa using hcc
              simp [List.filter_cons, this, ih2]
          · rw [if_neg hcc, Option.some.injEq] at h
            subst h
            refine ⟨ih1, ?_⟩
            have : (pySlice line 0 2 == country_code) = false := by
              simpa using hcc
            simp [List.filter_cons, this, ih2]

/-- The `{1.0, 2.0, 4.0}`-absolute-value example of the spec, as a joined
table (the middle value is negative to exercise `abs`). -/
def c4Rows : List PlotRow := [⟨"A", 1, 0, 0⟩, ⟨"B", -2, 0, 0⟩, ⟨"C", 4, 0, 0⟩]

/-- C4: on a non-empty joined table whose maximum absolute mean temperature
`mx` is positive, line 59 gives every row the marker size
`|VALUE| / mx * 15`, every marker size lies in `[0, 15]`, and a row attaining
the maximum — one always exists — gets exactly `15`. -/
theorem C4_marker_size_normalization (rows : List PlotRow) (mx : ℚ)
    (hmx : maxAbs rows = some mx) (hpos : 0 < mx) :
    (∀ r ∈ rows,
        markerSize (maxAbs rows) r.value = some (|r.value| / mx * 15) ∧
        0 ≤ |r.value| / mx * 15 ∧ |r.value| / mx * 15 ≤ 15 ∧
        (|r.value| = mx → |r.value| / mx * 15 = 15)) ∧
    ∃ r ∈ rows, |r.value| = mx ∧ markerSize (maxAbs rows) r.value = some 15 := by
  obtain ⟨hle, hex⟩ := maxAbs_spec rows mx hmx
  have hne : mx ≠ 0 := ne_of_gt hpos
  constructor
  · intro r hr
    refine ⟨by rw [hmx]; simp [markerSize, hne], ?_, ?_, ?_⟩
    · have h0 : (0:ℚ) ≤ |r.value| / mx := div_nonneg (abs_nonneg _) hpos.le
      nlinarith
    · have h1 : |r.value| / mx ≤ 1 := (div_le_one hpos).mpr (hle r hr)
      nlinarith
    · intro he
      rw [he, div_self hne, one_mul]
  · obtain ⟨r, hr, hre⟩ := hex
    refine ⟨r, hr, hre, ?_⟩
    rw [hmx]
    simp [markerSize, hne, hre, div_self hne]

/-- Witness for C4 on the spec's `{1, 2, 4}` example: the maximum is `4` and
the marker sizes come out as `3.75`, `7.5` and `15`. -/
theorem C4_marker_size_normalization_witness :
    maxAbs c4Rows = some 4 ∧ (0:ℚ) < 4 ∧
    ((∀ r ∈ c4Rows,
        markerSize (maxAbs c4Rows) r.value = some (|r.value| / 4 * 15) ∧
        0 ≤ |r.value| / 4 * 15 ∧ |r.value| / 4 * 15 ≤ 15 ∧
        (|r.value| = 4 → |r.value| / 4 * 15 = 15)) ∧
      ∃ r ∈ c4Rows, |r.value| = 4 ∧ markerSize (maxAbs c4Rows) r.value = some 15) ∧
    (c4Rows.map (fun r => markerSize (maxAbs c4Rows) r.value)
      = [some (15/4), some (15/2), some 15]) := by
  have h : maxAbs c4Rows = some 4 := by
    simp [maxAbs, c4Rows]
    norm_num [abs]
  refine ⟨h, by norm_num, C4_marker_size_normalization c4Rows 4 h (by norm_num), ?_⟩
  rw [h]
  simp [c4Rows, markerSize]
  norm_num [abs]

/-- The spec's aggregation example: one station with TMAX readings
`[21, 25, 23]` in tenths of a degree. -/
def c5Rows : List ObsRow :=
  [⟨"S1", "20200101", "TMAX", 21⟩, ⟨"S1", "20200102", "TMAX", 25⟩,
   ⟨"S1", "20200103", "TMAX", 23⟩]

/-- C5: line 49 converts every retained value exactly to `raw / 10`, line 52
reports per station the arithmetic mean of those converted values, a station
appears in the aggregation output exactly when it has at least one retained
row, and the spec's `[21, 25, 23] ↦ 2.3` example holds. -/
theorem C5_conversion_and_mean (rows : List ObsRow) :
    (∀ i, (∃ m, (i, m) ∈ aggregate rows) ↔ ∃ r ∈ rows, r.id = i) ∧
    (∀ i m, (i, m) ∈ aggregate rows →
        m = ((rows.filter (fun r => r.id == i)).map
               (fun r => (r.value : ℚ) / 10)).sum
              / ((rows.filter (fun r => r.id == i)).length : ℚ)) ∧
    aggregate c5Rows = [("S1", 23 / 10)] := by
  refine ⟨?_, ?_, ?_⟩
  · intro i
    constructor
    · rintro ⟨m, hm⟩
      obtain ⟨j, hj, hji⟩ := List.mem_map.mp hm
      have : j = i := congrArg Prod.fst hji
      subst this
      exact (mem_aggIds rows j).mp hj
    · intro hi
      exact ⟨groupMean rows i,
        List.mem_map_of_mem _ ((mem_aggIds rows i).mpr hi)⟩
  · intro i m hm
    obtain ⟨j, _, hji⟩ := List.mem_map.mp hm
    have hj : j = i := congrArg Prod.fst hji
    subst hj
    have : groupMean rows j = m := congrArg Prod.snd hji
    rw [← this, groupMean]
    simp [List.length_map]
  · simp +decide [aggregate, aggIds, sortStrings, insertSorted, lexLe, groupMean,
      c5Rows, List.dedup]
    norm_num

/-- Witness for C7: one well-formed Norwegian line parses to one record whose
id carries the `NO` prefix, in input order. -/
theorem C7_station_prefix_and_order_witness :
    parseStations pfEx "NO" [goodLine]
      = some [{ id := "NO000000001", lat := 599 / 10, lon := 268 / 25 }] ∧
    ((∀ r ∈ [({ id := "NO000000001", lat := 599 / 10, lon := 268 / 25 } :
          StationRecord)], pySlice r.id 0 2 = "NO") ∧
      [({ id := "NO000000001", lat := 599 / 10, lon := 268 / 25 } :
          StationRecord)].map (fun r => r.id)
        = ([goodLine].filter (fun l => pySlice l 0 2 == "NO")).map
            (fun l => pySlice l 0 11)) := by
  have h : parseStations pfEx "NO" [goodLine]
      = some [{ id := "NO000000001", lat := 599 / 10, lon := 268 / 25 }] := by
    simp +decide [parseStations, pfEx, goodLine, pySlice]
  exact ⟨h, C7_station_prefix_and_order pfEx "NO" [goodLine] _ h⟩

/-- C8: when the artifact for `(country_code, year)` already exists (lines
12–14), the call returns the existing path and leaves the file system
untouched, the artifact's content is unchanged, and a second run — with *any*
fetch results and any `float` behavior, since neither is consulted — returns
the identical path and the identical file system. -/
theorem C8_cache_gate_idempotent (pf : String → Option ℚ)
    (fs : List (String × Artifact)) (inv : Except Unit (List String))
    (obs : Except Unit (List ObsRow)) (year : Nat) (country_code : String)
    (a : Artifact) (h : fs.lookup (outputFile country_code year) = some a) :
    fetchAndProcessData pf fs inv obs year country_code
      = (some (outputFile country_code year), fs) ∧
    ((fetchAndProcessData pf fs inv obs year country_code).2.lookup
        (outputFile country_code year) = some a ∧
      ∀ (pf2 : String → Option ℚ) (inv2 : Except Unit (List String))
        (obs2 : Except Unit (List ObsRow)),
        fetchAndProcessData pf2
            (fetchAndProcessData pf fs inv obs year country_code).2
            inv2 obs2 year country_code
          = (some (outputFile country_code year), fs)) := by
  have h1 : fetchAndProcessData pf fs inv obs year country_code
      = (some (outputFile country_code year), fs) := by
    simp [fetchAndProcessData, h]
  refine ⟨h1, ?_, ?_⟩
  · rw [h1]; exact h
  · intro pf2 inv2 obs2
    rw [h1]
    simp [fetchAndProcessData, h]

/-- A file system already holding an artifact for `(NO, 2020)`. -/
def fs0 : List (String × Artifact) := [(outputFile "NO" 2020, ⟨[]⟩)]

/-- Witness for C8 at a concrete cached file system; the fetch collaborators
are both failing, which the cache hit never notices. -/
theorem C8_cache_gate_idempotent_witness :
    fs0.lookup (outputFile "NO" 2020) = some ⟨[]⟩ ∧
    fetchAndProcessData pfEx fs0 (.error ()) (.error ()) 2020 "NO"
      = (some (outputFile "NO" 2020), fs0) ∧
    (fetchAndProcessData pfEx fs0 (.error ()) (.error ()) 2020 "NO").2.lookup
        (outputFile "NO" 2020) = some ⟨[]⟩ ∧
    fetchAndProcessData pfEx
        (fetchAndProcessData pfEx fs0 (.error ()) (.error ()) 2020 "NO").2
        (.error ()) (.error ()) 2020 "NO"
      = (some (outputFile "NO" 2020), fs0) := by
  have h : fs0.lookup (outputFile "NO" 2020) = some ⟨[]⟩ := by
    simp [fs0, List.lookup]
  obtain ⟨h1, h2, h3⟩ :=
    C8_cache_gate_idempotent pfEx fs0 (.error ()) (.error ()) 2020 "NO" ⟨[]⟩ h
  exact ⟨h, h1, h2, h3 pfEx (.error ()) (.error ())⟩

/-- C9: on a cache miss, if fetching the inventory or the observation archive
raises a `requests.RequestException` (caught on lines 67–69), the function
writes nothing and returns `None`, and `main`'s `if csv_file:` (line 109)
therefore never calls `visualize_data`. -/
theorem C9_fetch_failure_suppresses_visualization (pf : String → Option ℚ)
    (fs : List (String × Artifact)) (inv : Except Unit (List String))
    (obs : Except Unit (List ObsRow)) (year : Nat) (country_code : String)
    (hmiss : fs.lookup (outputFile country_code year) = none)
    (hfail : inv = .error () ∨ obs = .error ()) :
    fetchAndProcessData pf fs inv obs year country_code = (none, fs) ∧
    mainVisualizes pf fs inv obs year country_code = false := by
  have h1 : fetchAndProcessData pf fs inv obs year country_code = (none, fs) := by
    rcases hfail with rfl | rfl
    · simp [fetchAndProcessData, hmiss]
    · cases inv with
      | error e => simp [fetchAndProcessData, hmiss]
      | ok lines =>
        cases hps : parseStations pf country_code lines with
        | none => simp [fetchAndProcessData, hmiss, hps]
        | some sts => simp [fetchAndProcessData, hmiss, hps]
  exact ⟨h1, by simp [mainVisualizes, h1, pyTruthy]⟩

/-- Witness for C9: empty file system, failing inventory fetch. -/
theorem C9_fetch_failure_suppresses_visualization_witness :
    ([] : List (String × Artifact)).lookup (outputFile "NO" 2020) = none ∧
    fetchAndProcessData pfEx [] (.error ()) (.ok []) 2020 "NO" = (none, []) ∧
    mainVisualizes pfEx [] (.error ()) (.ok []) 2020 "NO" = false := by
  have hm : ([] : List (String × Artifact)).lookup (outputFile "NO" 2020)
      = none := rfl
  obtain ⟨h1, h2⟩ := C9_fetch_failure_suppresses_visualization pfEx []
    (.error ()) (.ok []) 2020 "NO" hm (Or.inl rfl)
  exact ⟨hm, h1, h2⟩

/-- Two observation rows that agree on everything the pipeline consumes
except the `DATE` field. -/
def sameExceptDate (r s : ObsRow) : Prop :=
  r.id = s.id ∧ r.element = s.element ∧ r.value = s.value

/-- Filtering by a date-blind predicate preserves the row-wise relation. -/
theorem forall2_filter_sed (p : ObsRow → Bool)
    (hp : ∀ r s, sameExceptDate r s → p r = p s) :
    ∀ {l1 l2 : List ObsRow}, List.Forall₂ sameExceptDate l1 l2 →
      List.Forall₂ sameExceptDate (l1.filter p) (l2.filter p) := by
  intro l1 l2 h
  induction h with
  | nil => exact List.Forall₂.nil
  | @cons a b t1 t2 hab _ ih =>
    rw [List.filter_cons, List.filter_cons, ← hp a b hab]
    cases hpa : p a
    · simpa using ih
    · simpa using List.Forall₂.cons hab ih

/-- Mapping a date-blind function across related rows gives equal lists. -/
theorem forall2_map_sed {α : Type} (f : ObsRow → α)
    (hf : ∀ r s, sameExceptDate r s → f r = f s) :
    ∀ {l1 l2 : List ObsRow}, List.Forall₂ sameExceptDate l1 l2 →
      l1.map f = l2.map f := by
  intro l1 l2 h
  induction h with
  | nil => rfl
  | cons hab _ ih => simp only [List.map_cons, hf _ _ hab, ih]

/-- The filter of line 47 never reads `DATE`. -/
theorem filterObs_sed (ids : List String) {l1 l2 : List ObsRow}
    (h : List.Forall₂ sameExceptDate l1 l2) :
    List.Forall₂ sameExceptDate (filterObs l1 ids) (filterObs l2 ids) := by
  unfold filterObs
  exact forall2_filter_sed _ (fun r s hrs => by rw [hrs.1, hrs.2.1]) h

/-- The group mean of line 52 never reads `DATE`. -/
theorem groupMean_sed {l1 l2 : List ObsRow}
    (h : List.Forall₂ sameExceptDate l1 l2) (i : String) :
    groupMean l1 i = groupMean l2 i := by
  have hf := forall2_filter_sed (fun r => r.id == i)
    (fun r s hrs => by simp only [hrs.1]) h
  have hm := forall2_map_sed (fun r => (r.value : ℚ) / 10)
    (fun r s hrs => by simp only [hrs.2.2]) hf
  unfold groupMean
  rw [hm]

/-- The whole aggregation of line 52 never reads `DATE`. -/
theorem aggregate_sed {l1 l2 : List ObsRow}
    (h : List.Forall₂ sameExceptDate l1 l2) : aggregate l1 = aggregate l2 := by
  have hids : l1.map (fun r => r.id) = l2.map (fun r => r.id) :=
    forall2_map_sed _ (fun r s hrs => hrs.1) h
  unfold aggregate aggIds
  rw [show (l1.map (·.id)) = (l2.map (·.id)) from hids]
  exact List.map_congr_left (fun i _ => by rw [groupMean_sed h i])

/-- Rows of a `filterObs` output come from the input dataset. -/
theorem filterObs_subset (rows : List ObsRow) (ids : List String) :
    ∀ r ∈ filterObs rows ids, r ∈ rows := by
  intro r hr
  unfold filterObs at hr
  exact (List.mem_filter.mp hr).1

/-- C10: the parsed calendar dates of line 50 are dropped by the aggregation,
so two observation datasets that differ only in their `DATE` fields — all of
which parse — produce the same return value and the same written artifact. -/
theorem C10_date_independence (pf : String → Option ℚ)
    (fs : List (String × Artifact)) (inv : Except Unit (List String))
    (year : Nat) (country_code : String) (rows1 rows2 : List ObsRow)
    (hrel : List.Forall₂ sameExceptDate rows1 rows2)
    (hd1 : ∀ r ∈ rows1, (parseDate8 r.date).isSome = true)
    (hd2 : ∀ r ∈ rows2, (parseDate8 r.date).isSome = true) :
    fetchAndProcessData pf fs inv (.ok rows1) year country_code
      = fetchAndProcessData pf fs inv (.ok rows2) year country_code := by
  by_cases hc : (fs.lookup (outputFile country_code year)).isSome = true
  · simp [fetchAndProcessData, hc]
  · cases inv with
    | error e => simp [fetchAndProcessData, hc]
    | ok lines =>
      cases hps : parseStations pf country_code lines with
      | none => simp [fetchAndProcessData, hc, hps]
      | some sts =>
        have hfilt := filterObs_sed (sts.map (fun s => s.id)) hrel
        have hall1 : (filterObs rows1 (sts.map (fun s => s.id))).all
            (fun r => (parseDate8 r.date).isSome) = true :=
          List.all_eq_true.mpr
            (fun r hr => hd1 r (filterObs_subset _ _ r hr))
        have hall2 : (filterObs rows2 (sts.map (fun s => s.id))).all
            (fun r => (parseDate8 r.date).isSome) = true :=
          List.all_eq_true.mpr
            (fun r hr => hd2 r (filterObs_subset _ _ r hr))
        have hagg : aggregate (filterObs rows1 (sts.map (fun s => s.id)))
            = aggregate (filterObs rows2 (sts.map (fun s => s.id))) :=
          aggregate_sed hfilt
        simp [fetchAndProcessData, hc, hps, hall1, hall2, hagg]

/-- `row1` with its date moved to 2021. -/
def row1Alt : ObsRow := ⟨"NO000000001", "20210315", "TMAX", 210⟩

/-- Witness for C10: the same single observation under two different parseable
dates yields identical pipeline results. -/
theorem C10_date_independence_witness :
    List.Forall₂ sameExceptDate [row1] [row1Alt] ∧
    fetchAndProcessData pfEx [] (.ok [goodLine]) (.ok [row1]) 2020 "NO"
      = fetchAndProcessData pfEx [] (.ok [goodLine]) (.ok [row1Alt]) 2020 "NO" := by
  have hrel : List.Forall₂ sameExceptDate [row1] [row1Alt] :=
    List.Forall₂.cons ⟨rfl, rfl, rfl⟩ List.Forall₂.nil
  refine ⟨hrel, C10_date_independence pfEx [] (.ok [goodLine]) 2020 "NO"
    [row1] [row1Alt] hrel ?_ ?_⟩
  · intro r hr
    rcases List.mem_singleton.mp hr with rfl
    decide
  · intro r hr
    rcases List.mem_singleton.mp hr with rfl
    decide

/-- Counterexample to C2.  The claim predicts that the station parser drops
only the malformed line `badLine` and still returns the record of `goodLine`.
In the code the `float` call of line 28 runs before any per-line guard, so
the inventory with the bad line parses to nothing at all, while the same
inventory without it yields the good record. -/
theorem C2_lenient_station_parse_counterexample :
    parseStations pfEx "NO" [goodLine, badLine] = none ∧
    parseStations pfEx "NO" [goodLine]
      = some [{ id := "NO000000001", lat := 599 / 10, lon := 268 / 25 }] := by
  constructor
  · decide
  · simp +decide [parseStations, pfEx, goodLine, pySlice]

/-- C2 as amended: a line whose latitude or longitude does not parse as a
float makes the loop of lines 25–31 raise `ValueError`, which the handler of
lines 70–72 turns into an abort of the whole run: the station parse yields
nothing, and on a cache miss `fetch_and_process_data` returns `None` without
writing anything. -/
theorem C2_malformed_line_aborts_run (pf : String → Option ℚ)
    (country_code : String) (lines : List String) (line : String)
    (fs : List (String × Artifact)) (obs : Except Unit (List ObsRow))
    (year : Nat) (hmem : line ∈ lines)
    (hbad : pf (pySlice line 12 20) = none ∨ pf (pySlice line 21 30) = none)
    (hmiss : fs.lookup (outputFile country_code year) = none) :
    parseStations pf country_code lines = none ∧
    fetchAndProcessData pf fs (.ok lines) obs year country_code = (none, fs) := by
  have hnone : parseStations pf country_code lines = none := by
    induction lines with
    | nil => cases hmem
    | cons l rest ih =>
      rcases List.mem_cons.mp hmem with rfl | hmem'
      · rcases hbad with h | h
        · cases hlo : pf (pySlice line 21 30) <;>
            simp [parseStations, h, hlo]
        · cases hla : pf (pySlice line 12 20) <;>
            simp [parseStations, h, hla]
      · have hr := ih hmem'
        cases hla : pf (pySlice l 12 20) with
        | none => simp [parseStations, hla]
        | some la =>
          cases hlo : pf (pySlice l 21 30) with
          | none => simp [parseStations, hla, hlo]
          | some lo => simp [parseStations, hla, hlo, hr]
  exact ⟨hnone, by simp [fetchAndProcessData, hmiss, hnone]⟩

/-- Witness for the amended C2 at the concrete two-line inventory. -/
theorem C2_malformed_line_aborts_run_witness :
    badLine ∈ [goodLine, badLine] ∧
    pfEx (pySlice badLine 12 20) = none ∧
    ([] : List (String × Artifact)).lookup (outputFile "NO" 2020) = none ∧
    parseStations pfEx "NO" [goodLine, badLine] = none ∧
    fetchAndProcessData pfEx [] (.ok [goodLine, badLine]) (.ok [row1]) 2020 "NO"
      = (none, []) := by
  have h1 : badLine ∈ [goodLine, badLine] := by decide
  have h2 : pfEx (pySlice badLine 12 20) = none := by decide
  have h3 : ([] : List (String × Artifact)).lookup (outputFile "NO" 2020)
      = none := rfl
  obtain ⟨h4, h5⟩ := C2_malformed_line_aborts_run pfEx "NO" [goodLine, badLine]
    badLine [] (.ok [row1]) 2020 h1 (Or.inl h2) h3
  exact ⟨h1, h2, h3, h4, h5⟩

/-- Counterexample to C3.  The claim predicts that the row with the
unparseable date is dropped while `row1` is still aggregated into an
artifact.  In the code `pd.to_datetime` (line 50) raises on the single bad
row and the generic handler aborts the run with `None` and no artifact,
whereas the same dataset with both dates well-formed succeeds. -/
theorem C3_lenient_date_parse_counterexample :
    fetchAndProcessData pfEx [] (.ok [goodLine]) (.ok [row1, rowBadDate]) 2020 "NO"
      = (none, []) ∧
    fetchAndProcessData pfEx [] (.ok [goodLine]) (.ok [row1, row2]) 2020 "NO"
      = (some (outputFile "NO" 2020),
         [(outputFile "NO" 2020,
           ⟨[("NO000000001", 22, 599 / 10, 268 / 25, some 15)]⟩)]) := by
  constructor
  · decide
  · simp +decide [fetchAndProcessData, outputFile, parseStations, pySlice,
      filterObs, aggregate, aggIds, sortStrings, insertSorted, lexLe, groupMean,
      joinAvgStations, maxAbs, markerSize, parseDate8, pfEx, goodLine, row1,
      row2, digitsVal, daysInMonth, isLeap, tempElements, List.dedup]
    norm_num

/-- C3 as amended: if any row retained by the filter of line 47 has a `DATE`
that does not parse as `YYYYMMDD`, the `pd.to_datetime` call of line 50
raises; the handler of lines 70–72 aborts the run, returning `None` with no
artifact written and nothing aggregated. -/
theorem C3_malformed_date_aborts_run (pf : String → Option ℚ)
    (fs : List (String × Artifact)) (lines : List String) (rows : List ObsRow)
    (year : Nat) (country_code : String) (sts : List StationRecord) (r : ObsRow)
    (hmiss : fs.lookup (outputFile country_code year) = none)
    (hst : parseStations pf country_code lines = some sts)
    (hr : r ∈ filterObs rows (sts.map (fun s => s.id)))
    (hbad : parseDate8 r.date = none) :
    fetchAndProcessData pf fs (.ok lines) (.ok rows) year country_code
      = (none, fs) := by
  have hall : (filterObs rows (sts.map (fun s => s.id))).all
      (fun r => (parseDate8 r.date).isSome) = false := by
    apply List.all_eq_false.mpr
    exact ⟨r, hr, by simp [hbad]⟩
  simp [fetchAndProcessData, hmiss, hst, hall]

/-- Witness for the amended C3 at the concrete dataset with one bad date. -/
theorem C3_malformed_date_aborts_run_witness :
    ([] : List (String × Artifact)).lookup (outputFile "NO" 2020) = none ∧
    parseStations pfEx "NO" [goodLine]
      = some [{ id := "NO000000001", lat := 599 / 10, lon := 268 / 25 }] ∧
    rowBadDate ∈ filterObs [row1, rowBadDate]
      ([({ id := "NO000000001", lat := 599 / 10, lon := 268 / 25 } :
          StationRecord)].map (fun s => s.id)) ∧
    parseDate8 rowBadDate.date = none ∧
    fetchAndProcessData pfEx [] (.ok [goodLine]) (.ok [row1, rowBadDate]) 2020 "NO"
      = (none, []) := by
  have h1 : ([] : List (String × Artifact)).lookup (outputFile "NO" 2020)
      = none := rfl
  have h2 : parseStations pfEx "NO" [goodLine]
      = some [{ id := "NO000000001", lat := 599 / 10, lon := 268 / 25 }] := by
    simp +decide [parseStations, pfEx, goodLine, pySlice]
  have h3 : rowBadDate ∈ filterObs [row1, rowBadDate]
      ([({ id := "NO000000001", lat := 599 / 10, lon := 268 / 25 } :
          StationRecord)].map (fun s => s.id)) := by
    decide
  have h4 : parseDate8 rowBadDate.date = none := by decide
  exact ⟨h1, h2, h3, h4,
    C3_malformed_date_aborts_run pfEx [] [goodLine] [row1, rowBadDate] 2020 "NO"
      _ rowBadDate h1 h2 h3 h4⟩

/-- Counterexample to C1.  The claim predicts that with an empty joined set
(the only observation belongs to a foreign station) an `EmptyResultError` is
reported and no file is written; the code instead computes a `NaN` maximum,
writes a header-only artifact and returns its path. -/
theorem C1_empty_result_counterexample :
    fetchAndProcessData pfEx [] (.ok [goodLine]) (.ok [rowOther]) 2020 "NO"
      = (some (outputFile "NO" 2020), [(outputFile "NO" 2020, ⟨[]⟩)]) := by
  simp +decide [fetchAndProcessData, outputFile, parseStations, pySlice,
    filterObs, aggregate, aggIds, sortStrings, insertSorted, lexLe, groupMean,
    joinAvgStations, maxAbs, markerSize, parseDate8, pfEx, goodLine, rowOther,
    digitsVal, daysInMonth, isLeap, tempElements, List.dedup]

/-- C1 as amended: the code defines no `EmptyResultError` and aborts nothing.
On a cache miss with parseable stations and dates, an empty join makes
`max()` return `NaN`, and the artifact — header-only — is written anyway with
its path returned; likewise a zero maximum makes every marker size the `NaN`
of `0.0 / 0.0` and the artifact is still written. -/
theorem C1_empty_or_zero_max_still_writes (pf : String → Option ℚ)
    (fs : List (String × Artifact)) (lines : List String) (rows : List ObsRow)
    (year : Nat) (country_code : String) (sts : List StationRecord)
    (hmiss : fs.lookup (outputFile country_code year) = none)
    (hst : parseStations pf country_code lines = some sts)
    (hdates : (filterObs rows (sts.map (fun s => s.id))).all
        (fun r => (parseDate8 r.date).isSome) = true) :
    (joinAvgStations (aggregate (filterObs rows (sts.map (fun s => s.id)))) sts
        = [] →
      fetchAndProcessData pf fs (.ok lines) (.ok rows) year country_code
        = (some (outputFile country_code year),
           (outputFile country_code year, ⟨[]⟩) :: fs)) ∧
    (maxAbs (joinAvgStations
          (aggregate (filterObs rows (sts.map (fun s => s.id)))) sts) = some 0 →
      fetchAndProcessData pf fs (.ok lines) (.ok rows) year country_code
        = (some (outputFile country_code year),
           (outputFile country_code year,
            ⟨(joinAvgStations
                (aggregate (filterObs rows (sts.map (fun s => s.id)))) sts).map
               (fun r => (r.id, r.value, r.lat, r.lon, none))⟩) :: fs)) := by
  constructor
  · intro hj
    simp [fetchAndProcessData, hmiss, hst, hdates, hj, maxAbs]
  · intro hmx
    simp [fetchAndProcessData, hmiss, hst, hdates, hmx, markerSize]

/-- Witness for the amended C1 in the empty-join case. -/
theorem C1_empty_or_zero_max_still_writes_witness :
    ([] : List (String × Artifact)).lookup (outputFile "NO" 2020) = none ∧
    parseStations pfEx "NO" [goodLine]
      = some [{ id := "NO000000001", lat := 599 / 10, lon := 268 / 25 }] ∧
    (filterObs [rowOther]
        ([({ id := "NO000000001", lat := 599 / 10, lon := 268 / 25 } :
            StationRecord)].map (fun s => s.id))).all
      (fun r => (parseDate8 r.date).isSome) = true ∧
    fetchAndProcessData pfEx [] (.ok [goodLine]) (.ok [rowOther]) 2020 "NO"
      = (some (outputFile "NO" 2020), [(outputFile "NO" 2020, ⟨[]⟩)]) := by
  have h1 : ([] : List (String × Artifact)).lookup (outputFile "NO" 2020)
      = none := rfl
  have h2 : parseStations pfEx "NO" [goodLine]
      = some [{ id := "NO000000001", lat := 599 / 10, lon := 268 / 25 }] := by
    simp +decide [parseStations, pfEx, goodLine, pySlice]
  have h3 : (filterObs [rowOther]
      ([({ id := "NO000000001", lat := 599 / 10, lon := 268 / 25 } :
          StationRecord)].map (fun s => s.id))).all
      (fun r => (parseDate8 r.date).isSome) = true := by decide
  have h4 : joinAvgStations
      (aggregate (filterObs [rowOther]
        ([({ id := "NO000000001", lat := 599 / 10, lon := 268 / 25 } :
            StationRecord)].map (fun s => s.id))))
      [{ id := "NO000000001", lat := 599 / 10, lon := 268 / 25 }] = [] := by
    decide
  exact ⟨h1, h2, h3,
    (C1_empty_or_zero_max_still_writes pfEx [] [goodLine] [rowOther] 2020 "NO"
      _ h1 h2 h3).1 h4⟩
